import Mathlib

/-!
Verification of the `CreateSchedule` handler of the DSM-DMS v1 API gateway
(`handler/default_schedule.go`), shallowly embedded as a pure function over
an environment that records the results returned by the handler's external
collaborators (request-log middleware, authenticator, validator, consul
agent, circuit breaker library, schedule RPC service).
-/

namespace Gateway

/-- A service node as returned by `consulAgent.GetNextServiceNode`:
its id, address, and the health-check reference read from
`Metadata["CheckID"]`. -/
structure Node where
  id : String
  address : String
  checkID : String
deriving DecidableEq

/-- The handler's breaker configuration `h.BreakerCfg`.  `timeout` is the
cool-down duration (`Timeout`), and `timeoutStr` its textual rendering
`Timeout.String()` as interpolated into the breaker-open message. -/
structure BreakerCfg where
  errorThreshold : Nat
  successThreshold : Nat
  timeout : Nat
  timeoutStr : String
deriving DecidableEq

/-- Modelled from the spec: the numeric constants of the
`gateway/utils/code/golang` package (`code.AvailableServiceNotExist`,
`code.CircuitBreakerOpen`) are not under the sources, so the development is
parametric in their values; the spec only requires them to be the
distinguished internal codes of the two 503 outcomes. -/
structure Codes where
  availableServiceNotExist : Int
  circuitBreakerOpen : Int
deriving DecidableEq

/-- A typed go-micro framework error (`*errors.Error`), as matched by the
handler's transport-error switch: its `Code` and `Detail` fields. -/
structure MicroError where
  code : Int
  detail : String
deriving DecidableEq

/-- The schedule service's RPC response (`*scheduleproto.DefaultScheduleResponse`):
the backend-declared `Status`, `Code` and `Msg` read by the handler.
`scheduleUuid` is modelled from the spec: the proto definition is not under
the sources, and per the spec the backend response carries a generated
identifier that the handler never propagates. -/
structure RpcResp where
  status : Int
  code : Int
  msg : String
  scheduleUuid : String
deriving DecidableEq

/-- Result of `consulAgent.GetNextServiceNode(topic.ScheduleServiceName)`:
a node, the distinguished `agenterrors.AvailableNodeNotExist` error, or any
other error (carrying its `Error()` string). -/
inductive ResolveResult where
  | ok (node : Node)
  | availableNodeNotExist
  | otherErr (msg : String)
deriving DecidableEq

/-- Outcome of `h.breakers[id].Run(fn)`: either the breaker is Open and
rejects without invoking `fn` (`breaker.ErrBreakerOpen`), or `fn` is invoked
and the RPC call returns a response, a typed go-micro error, or an untyped
error. -/
inductive RunOutcome where
  | reject
  | okResp (resp : RpcResp)
  | microErr (e : MicroError)
  | otherErr (msg : String)
deriving DecidableEq

/-- What the `RequestLogEntry` context value yields after the type
assertion at the top of the handler: a usable `*logrus.Entry`, or nil
(value absent from the context, or present with a different type). -/
inductive LogEntryVal where
  | absent
  | present
deriving DecidableEq

/-- Result of `h.checkIfAuthenticated(c)`: pass/fail plus the code and
message rendered on failure. -/
structure AuthResult where
  ok : Bool
  code : Int
  msg : String
deriving DecidableEq

/-- Result of `h.checkIfValidRequest(c, &receivedReq)`: pass/fail plus the
code and message rendered on failure. -/
structure ValidResult where
  ok : Bool
  code : Int
  msg : String
deriving DecidableEq

/-- The environment of one request: everything the handler's collaborators
return during the request. `failTTLOk` / `passTTLOk` record whether the
fire-and-forget health signals succeed; the handler discards both results. -/
structure Env where
  logEntry : LogEntryVal
  auth : AuthResult
  valid : ValidResult
  resolve : ResolveResult
  run : RunOutcome
  failTTLOk : Bool
  passTTLOk : Bool

/-- The JSON body written by `c.JSON`: status, code, message, and (only on
the 201 success path) the `schedule_uuid` field. -/
structure Response where
  status : Int
  code : Int
  message : String
  scheduleUuid : Option String
deriving DecidableEq

/-- Synchronous side effects of the handler, in program order. -/
inductive Effect where
  | rpcCall (address : String)
  | failTTL (checkID reason : String)
  | jsonWrite (r : Response)
  | logWrite (level : String) (status : Int) (code : Int) (message : String)
deriving DecidableEq

/-- A deferred one-shot task registered via `time.AfterFunc`: it fires
`delay` after registration and passes the TTL health check `checkID`. -/
structure Deferred where
  delay : Nat
  checkID : String
  note : String
deriving DecidableEq

/-- How the handler terminates: normally with a response, or by
dereferencing the nil `*logrus.Entry` after having written `written`
(the `entry.WithFields` call on the nil entry in the missing-log-entry
branch). -/
inductive HOutcome where
  | ok (r : Response)
  | nilEntryCrash (written : Response)
deriving DecidableEq

/-- Observable result of one handler run: ordered synchronous effects,
deferred tasks scheduled, termination outcome, and the log lines produced
inside the consul agent by the health signals. -/
structure HandlerOut where
  effects : List Effect
  deferred : List Deferred
  outcome : HOutcome
  agentLogs : List String
deriving DecidableEq

/-- The breaker registry `h.breakers` guarded by `h.mutex`: a map from node
id to breaker instance (instances numbered by creation order), plus the
number of instances created so far. -/
structure RegState where
  breakers : String → Option Nat
  nextInstance : Nat

/-- The mutex-guarded check-and-insert of the handler
(`h.mutex.Lock(); if _, ok := h.breakers[id]; !ok { h.breakers[id] = breaker.New(...) }; h.mutex.Unlock()`),
modelled as one atomic action since the mutex is held throughout. -/
def getOrCreate (s : RegState) (k : String) : RegState × Nat :=
  match s.breakers k with
  | some b => (s, b)
  | none =>
      ({ breakers := fun k2 => if k2 = k then some s.nextInstance else s.breakers k2,
         nextInstance := s.nextInstance + 1 },
       s.nextInstance)

/-- Modelled from the spec: the consul agent implementation
(`gateway/tool/consul/agent`) is not under the sources.  Per the spec,
`FailTTLHealth` marks the check failing and a failure to signal is logged,
not retried, and never escalated to the caller.  `succeeded` says whether
the signal went through; the result is the agent-side log. -/
def failTTLHealthLogs (succeeded : Bool) (checkID reason : String) : List String :=
  if succeeded then []
  else ["failed to mark health check " ++ checkID ++ " failing: " ++ reason]

/-- Error text of `breaker.ErrBreakerOpen` in the go-resiliency library. -/
def errBreakerOpenText : String := "circuit breaker is open"

/-- Message of the breaker-open response (handler line 115). -/
def breakerOpenMsg (node : Node) (cfg : BreakerCfg) : String :=
  "circuit breaker is open (service id: " ++ node.id ++ ", time out: " ++ cfg.timeoutStr ++ ")"

/-- Message of the timeout-coded transport-error response (handler line 134). -/
def timeoutDetailMsg (e : MicroError) : String :=
  "request time out for CreateSchedule service, detail: " ++ e.detail

/-- Message of the non-timeout typed transport-error response (handler line 137). -/
def unexpectedMicroMsg (e : MicroError) : String :=
  "CreateSchedule returns unexpected micro error, code: " ++ toString e.code ++ ", detail: " ++ e.detail

/-- Message of the untyped transport-error response (handler line 147). -/
def unexpectedTypeMsg (m : String) : String :=
  "CreateSchedule returns unexpected type of error, err: " ++ m

/-- Message of the no-available-node response (handler line 76). -/
def nodeNotExistMsg : String := "available schedule service node is not exist in consul"

/-- Message of the generic node-resolution-error response (handler line 84). -/
def resolveErrMsg (e : String) : String :=
  "unable to get service node from consul agent, err: " ++ e

/-- Message of the missing-log-entry response (handler line 33). -/
def noEntryMsg : String := "unable to get request log entry from middleware"

/-- Shallow embedding of `(*_default).CreateSchedule`, following the Go
control flow branch by branch.  Tracing spans are omitted (out of scope);
`c.JSON` and `entry.WithFields(...).Error()/.Info()` become ordered
effects.  Note that in the missing-log-entry branch the Go code writes the
500 JSON and then calls `entry.WithFields` on the nil entry (line 31
reassigned `ok` from the type assertion, so `entry` is nil there), which
is a nil-pointer dereference: the run ends in `nilEntryCrash`. -/
def CreateSchedule (cfg : BreakerCfg) (codes : Codes) (reg : RegState) (env : Env) :
    RegState × HandlerOut :=
  match env.logEntry with
  | .absent =>
      let r : Response := { status := 500, code := 0, message := noEntryMsg, scheduleUuid := none }
      (reg, { effects := [.jsonWrite r], deferred := [], outcome := .nilEntryCrash r, agentLogs := [] })
  | .present =>
      if env.auth.ok = true then
        if env.valid.ok = true then
          match env.resolve with
          | .ok node =>
              let reg2 := (getOrCreate reg node.id).1
              match env.run with
              | .reject =>
                  let msg := breakerOpenMsg node cfg
                  let r : Response :=
                    { status := 503, code := codes.circuitBreakerOpen, message := msg, scheduleUuid := none }
                  (reg2,
                   { effects := [.failTTL node.checkID errBreakerOpenText, .jsonWrite r,
                                 .logWrite "error" 503 codes.circuitBreakerOpen msg],
                     deferred := [{ delay := cfg.timeout, checkID := node.checkID,
                                    note := "close circuit breaker" }],
                     outcome := .ok r,
                     agentLogs := failTTLHealthLogs env.failTTLOk node.checkID errBreakerOpenText })
              | .okResp resp =>
                  if resp.status = 201 then
                    let r : Response :=
                      { status := 201, code := 0, message := "succeed to create new schedule",
                        scheduleUuid := some "" }
                    (reg2,
                     { effects := [.rpcCall node.address, .jsonWrite r, .logWrite "info" 201 0 r.message],
                       deferred := [], outcome := .ok r, agentLogs := [] })
                  else
                    let level :=
                      if resp.status = 408 ∨ resp.status = 500 ∨ resp.status = 503 then "error" else "info"
                    let r : Response :=
                      { status := resp.status, code := resp.code, message := resp.msg, scheduleUuid := none }
                    (reg2,
                     { effects := [.rpcCall node.address, .jsonWrite r,
                                   .logWrite level resp.status resp.code resp.msg],
                       deferred := [], outcome := .ok r, agentLogs := [] })
              | .microErr e =>
                  if e.code = 408 then
                    let msg := timeoutDetailMsg e
                    let r : Response := { status := 408, code := 0, message := msg, scheduleUuid := none }
                    (reg2,
                     { effects := [.rpcCall node.address, .jsonWrite r, .logWrite "error" 408 0 msg],
                       deferred := [], outcome := .ok r, agentLogs := [] })
                  else
                    let msg := unexpectedMicroMsg e
                    let r : Response := { status := 500, code := 0, message := msg, scheduleUuid := none }
                    (reg2,
                     { effects := [.rpcCall node.address, .jsonWrite r, .logWrite "error" 500 0 msg],
                       deferred := [], outcome := .ok r, agentLogs := [] })
              | .otherErr m =>
                  let msg := unexpectedTypeMsg m
                  let r : Response := { status := 500, code := 0, message := msg, scheduleUuid := none }
                  (reg2,
                   { effects := [.rpcCall node.address, .jsonWrite r, .logWrite "error" 500 0 msg],
                     deferred := [], outcome := .ok r, agentLogs := [] })
          | .availableNodeNotExist =>
              let r : Response :=
                { status := 503, code := codes.availableServiceNotExist, message := nodeNotExistMsg,
                  scheduleUuid := none }
              (reg,
               { effects := [.jsonWrite r,
                             .logWrite "error" 503 codes.availableServiceNotExist nodeNotExistMsg],
                 deferred := [], outcome := .ok r, agentLogs := [] })
          | .otherErr e =>
              let msg := resolveErrMsg e
              let r : Response := { status := 500, code := 0, message := msg, scheduleUuid := none }
              (reg,
               { effects := [.jsonWrite r, .logWrite "error" 500 0 msg],
                 deferred := [], outcome := .ok r, agentLogs := [] })
        else
          let r : Response :=
            { status := 400, code := env.valid.code, message := env.valid.msg, scheduleUuid := none }
          (reg,
           { effects := [.jsonWrite r, .logWrite "info" 400 env.valid.code env.valid.msg],
             deferred := [], outcome := .ok r, agentLogs := [] })
      else
        let r : Response :=
          { status := 401, code := env.auth.code, message := env.auth.msg, scheduleUuid := none }
        (reg,
         { effects := [.jsonWrite r, .logWrite "info" 401 env.auth.code env.auth.msg],
           deferred := [], outcome := .ok r, agentLogs := [] })

/-- The string `sub` occurs as a contiguous substring of `s`. -/
def strContains (s sub : String) : Prop := ∃ a b, s = a ++ sub ++ b

/-- Number of backend RPC invocations recorded in a handler run. -/
def rpcCalls (out : HandlerOut) : Nat :=
  out.effects.countP (fun e => match e with | .rpcCall _ => true | _ => false)

/-- The request reaches the dispatch step: log entry present, authentication
and validation passed, and a node was resolved. -/
def reachesDispatch (env : Env) : Bool :=
  (match env.logEntry with | .present => true | .absent => false)
  && env.auth.ok && env.valid.ok
  && (match env.resolve with | .ok _ => true | _ => false)

/-- The breaker admitted the protected call (did not reject it as Open). -/
def breakerAdmits (env : Env) : Bool :=
  match env.run with | .reject => false | _ => true

/-- Earliest instants at which the deferred tasks can fire when registered
at instant `now`: `time.AfterFunc` fires its function once `delay` has
elapsed. -/
def fireTimes (now : Nat) (ds : List Deferred) : List Nat :=
  ds.map (fun d => now + d.delay)

/-- Serialized execution of a list of mutex-guarded registry accesses (one
per concurrent caller, in the order the mutex was acquired), recording each
caller's observed breaker instance. -/
def runAccesses : RegState → List String → RegState × List (String × Nat)
  | s, [] => (s, [])
  | s, k :: ks =>
      let p := getOrCreate s k
      let q := runAccesses p.1 ks
      (q.1, (k, p.2) :: q.2)

/-- An entry already present in the registry survives any further
get-or-create (entries are never removed or overwritten). -/
theorem getOrCreate_preserves (s : RegState) (k k2 : String) (b : Nat)
    (h : s.breakers k2 = some b) : ((getOrCreate s k).1).breakers k2 = some b := by
  unfold getOrCreate
  cases hx : s.breakers k with
  | some b2 => simpa [hx] using h
  | none =>
      by_cases hk : k2 = k
      · subst hk; rw [h] at hx; cases hx
      · simp [hx, hk, h]

/-- After a get-or-create for `k`, the registry holds exactly the breaker
instance returned to the caller. -/
theorem getOrCreate_observes (s : RegState) (k : String) :
    ((getOrCreate s k).1).breakers k = some (getOrCreate s k).2 := by
  unfold getOrCreate
  cases hx : s.breakers k <;> simp [hx]

/-- Registry entries survive an arbitrary serialized access sequence. -/
theorem runAccesses_preserves (ks : List String) (s : RegState) (k : String) (b : Nat)
    (h : s.breakers k = some b) : (runAccesses s ks).1.breakers k = some b := by
  induction ks generalizing s with
  | nil => simpa [runAccesses] using h
  | cons k2 ks ih =>
      simp only [runAccesses]
      exact ih _ (getOrCreate_preserves s k2 k b h)

/-- Every caller's observed breaker instance is the one the final registry
holds for that caller's node id. -/
theorem runAccesses_observes (ks : List String) (s : RegState) :
    ∀ p ∈ (runAccesses s ks).2, (runAccesses s ks).1.breakers p.1 = some p.2 := by
  induction ks generalizing s with
  | nil => simp [runAccesses]
  | cons k ks ih =>
      intro p hp
      simp only [runAccesses, List.mem_cons] at hp
      rcases hp with h | h
      · subst h
        exact runAccesses_preserves ks _ k _ (getOrCreate_observes s k)
      · exact ih _ p h

/-- The empty registry: no breaker created yet. -/
def regInit : RegState := { breakers := fun _ => none, nextInstance := 0 }

/-- Sample configuration used to instantiate universally quantified
theorems on concrete inputs. -/
def cfgEx : BreakerCfg :=
  { errorThreshold := 3, successThreshold := 3, timeout := 30000000000, timeoutStr := "30s" }

/-- Sample internal-code values. -/
def codesEx : Codes := { availableServiceNotExist := -101, circuitBreakerOpen := -102 }

/-- Sample resolved service node. -/
def nodeEx : Node := { id := "schedule-1", address := "10.0.0.5:8080", checkID := "check-schedule-1" }

/-- Authentication passing. -/
def authOk : AuthResult := { ok := true, code := 0, msg := "" }

/-- Validation passing. -/
def validOk : ValidResult := { ok := true, code := 0, msg := "" }

/-- A request on which the breaker rejects the call as Open and the failing
health signal itself fails. -/
def envReject : Env :=
  { logEntry := .present, auth := authOk, valid := validOk, resolve := .ok nodeEx,
    run := .reject, failTTLOk := false, passTTLOk := true }

/-- C3: for every node id, at most one Breaker is ever created under N
concurrent first-time accesses: for any serialization of the mutex-guarded
critical sections, all callers of the same id observe the same breaker
instance, every caller's read of the map observes the breaker written for
its id, and no entry is ever removed. -/
theorem claim_c3_registry_exactly_once (s : RegState) (ks : List String)
    (_hfirst : ∀ k, s.breakers k = none) :
    (∀ p ∈ (runAccesses s ks).2, ∀ q ∈ (runAccesses s ks).2, p.1 = q.1 → p.2 = q.2)
    ∧ (∀ p ∈ (runAccesses s ks).2, (runAccesses s ks).1.breakers p.1 = some p.2)
    ∧ (∀ k b, s.breakers k = some b → (runAccesses s ks).1.breakers k = some b) := by
  refine ⟨?_, runAccesses_observes ks s, fun k b h => runAccesses_preserves ks s k b h⟩
  intro p hp q hq hpq
  have h1 := runAccesses_observes ks s p hp
  have h2 := runAccesses_observes ks s q hq
  rw [hpq, h2] at h1
  exact (Option.some.inj h1).symm

/-- Witness for C3 at two first-time accesses to the same id: both callers
observe breaker instance 0 and the final map holds it. -/
theorem claim_c3_registry_exactly_once_witness :
    (runAccesses regInit ["a", "a"]).1.breakers "a" = some 0 :=
  (claim_c3_registry_exactly_once regInit ["a", "a"] (fun _ => rfl)).2.1 ("a", 0)
    (by simp [runAccesses, getOrCreate, regInit])

/-- C9: the backend RPC is invoked at most once per request — exactly once
when the request reaches dispatch and the breaker admits the call, and zero
times when the request is rejected by the missing log entry,
authentication, validation, node resolution, or an open breaker. -/
theorem claim_c9_single_rpc_attempt (cfg : BreakerCfg) (codes : Codes) (reg : RegState) (env : Env) :
    rpcCalls (CreateSchedule cfg codes reg env).2
        = (if reachesDispatch env && breakerAdmits env then 1 else 0)
    ∧ rpcCalls (CreateSchedule cfg codes reg env).2 ≤ 1 := by
  obtain ⟨le, au, va, re, ru, f, p⟩ := env
  obtain ⟨aok, ac, am⟩ := au
  obtain ⟨vok, vc, vm⟩ := va
  cases le <;> cases aok <;> cases vok <;> cases re <;> cases ru <;>
    simp [CreateSchedule, rpcCalls, reachesDispatch, breakerAdmits, List.countP,
      List.countP.go] <;> split <;> simp [List.countP, List.countP.go]

/-- C1: when a node is resolved and its breaker rejects the call as Open,
the handler responds 503 with internal code `CircuitBreakerOpen`, the
message contains the node id and the rendered cool-down duration, and the
failing health signal for the node's check reference is issued before the
response is written. -/
theorem claim_c1_breaker_open_response (cfg : BreakerCfg) (codes : Codes) (reg : RegState)
    (env : Env) (node : Node)
    (h1 : env.logEntry = .present) (h2 : env.auth.ok = true) (h3 : env.valid.ok = true)
    (h4 : env.resolve = .ok node) (h5 : env.run = .reject) :
    (CreateSchedule cfg codes reg env).2.outcome
        = .ok { status := 503, code := codes.circuitBreakerOpen,
                message := breakerOpenMsg node cfg, scheduleUuid := none }
    ∧ strContains (breakerOpenMsg node cfg) node.id
    ∧ strContains (breakerOpenMsg node cfg) cfg.timeoutStr
    ∧ (CreateSchedule cfg codes reg env).2.effects
        = [.failTTL node.checkID errBreakerOpenText,
           .jsonWrite { status := 503, code := codes.circuitBreakerOpen,
                        message := breakerOpenMsg node cfg, scheduleUuid := none },
           .logWrite "error" 503 codes.circuitBreakerOpen (breakerOpenMsg node cfg)] := by
  refine ⟨?_, ?_, ?_, ?_⟩
  · simp [CreateSchedule, h1, h2, h3, h4, h5]
  · exact ⟨"circuit breaker is open (service id: ", ", time out: " ++ cfg.timeoutStr ++ ")",
      by simp [breakerOpenMsg, String.append_assoc]⟩
  · exact ⟨"circuit breaker is open (service id: " ++ node.id ++ ", time out: ", ")",
      by simp [breakerOpenMsg, String.append_assoc]⟩
  · simp [CreateSchedule, h1, h2, h3, h4, h5]

/-- Witness for C1 at a concrete rejected request. -/
theorem claim_c1_breaker_open_response_witness :
    (CreateSchedule cfgEx codesEx regInit envReject).2.outcome
      = .ok { status := 503, code := codesEx.circuitBreakerOpen,
              message := breakerOpenMsg nodeEx cfgEx, scheduleUuid := none } :=
  (claim_c1_breaker_open_response cfgEx codesEx regInit envReject nodeEx
    rfl rfl rfl rfl rfl).1

/-- C2: on every breaker-open rejection the failing health signal is the
first synchronous effect, issued before the response is written and the
handler returns; exactly one deferred passing signal is scheduled, with
delay equal to the configured cool-down, so it fires no earlier than
cool-down after the triggering event; being deferred, it is not part of the
synchronous request-path effects. -/
theorem claim_c2_deferred_recovery (cfg : BreakerCfg) (codes : Codes) (reg : RegState)
    (env : Env) (node : Node)
    (h1 : env.logEntry = .present) (h2 : env.auth.ok = true) (h3 : env.valid.ok = true)
    (h4 : env.resolve = .ok node) (h5 : env.run = .reject) :
    (CreateSchedule cfg codes reg env).2.effects
        = [.failTTL node.checkID errBreakerOpenText,
           .jsonWrite { status := 503, code := codes.circuitBreakerOpen,
                        message := breakerOpenMsg node cfg, scheduleUuid := none },
           .logWrite "error" 503 codes.circuitBreakerOpen (breakerOpenMsg node cfg)]
    ∧ (CreateSchedule cfg codes reg env).2.deferred
        = [{ delay := cfg.timeout, checkID := node.checkID, note := "close circuit breaker" }]
    ∧ (∀ now t, t ∈ fireTimes now (CreateSchedule cfg codes reg env).2.deferred →
        now + cfg.timeout ≤ t) := by
  refine ⟨by simp [CreateSchedule, h1, h2, h3, h4, h5], by simp [CreateSchedule, h1, h2, h3, h4, h5], ?_⟩
  intro now t ht
  simp [CreateSchedule, h1, h2, h3, h4, h5, fireTimes] at ht
  omega

/-- Witness for C2 at a concrete rejected request. -/
theorem claim_c2_deferred_recovery_witness :
    (CreateSchedule cfgEx codesEx regInit envReject).2.deferred
      = [{ delay := cfgEx.timeout, checkID := nodeEx.checkID, note := "close circuit breaker" }] :=
  (claim_c2_deferred_recovery cfgEx codesEx regInit envReject nodeEx
    rfl rfl rfl rfl rfl).2.1

/-- C4: when the backend call returns without error and the declared status
is 201, the handler responds 201, code 0, the fixed success message, and an
empty `schedule_uuid` — regardless of the rest of the backend response
(`resp` is arbitrary apart from its status, so the backend's generated
identifier is never echoed). -/
theorem claim_c4_created_response (cfg : BreakerCfg) (codes : Codes) (reg : RegState)
    (env : Env) (node : Node) (resp : RpcResp)
    (h1 : env.logEntry = .present) (h2 : env.auth.ok = true) (h3 : env.valid.ok = true)
    (h4 : env.resolve = .ok node) (h5 : env.run = .okResp resp) (h6 : resp.status = 201) :
    (CreateSchedule cfg codes reg env).2.outcome
      = .ok { status := 201, code := 0, message := "succeed to create new schedule",
              scheduleUuid := some "" } := by
  simp [CreateSchedule, h1, h2, h3, h4, h5, h6]

/-- Witness for C4: the backend declares 201 and a generated identifier,
and the response still carries the empty `schedule_uuid`. -/
theorem claim_c4_created_response_witness :
    (CreateSchedule cfgEx codesEx regInit
        { envReject with
          run := .okResp { status := 201, code := 0, msg := "created",
                           scheduleUuid := "backend-generated-uuid" } }).2.outcome
      = .ok { status := 201, code := 0, message := "succeed to create new schedule",
              scheduleUuid := some "" } :=
  claim_c4_created_response cfgEx codesEx regInit _ nodeEx
    { status := 201, code := 0, msg := "created", scheduleUuid := "backend-generated-uuid" }
    rfl rfl rfl rfl rfl rfl

/-- C5: when node resolution yields the available-node-not-exist signal the
handler responds 503 with code `AvailableServiceNotExist`; on any other
resolution error it responds 500 with code 0; in both cases the registry is
untouched (no breaker created or consulted) and the effects contain no
backend invocation. -/
theorem claim_c5_resolution_errors (cfg : BreakerCfg) (codes : Codes) (reg : RegState)
    (env : Env)
    (h1 : env.logEntry = .present) (h2 : env.auth.ok = true) (h3 : env.valid.ok = true) :
    (env.resolve = .availableNodeNotExist →
      (CreateSchedule cfg codes reg env).2.outcome
          = .ok { status := 503, code := codes.availableServiceNotExist,
                  message := nodeNotExistMsg, scheduleUuid := none }
      ∧ (CreateSchedule cfg codes reg env).1 = reg
      ∧ (CreateSchedule cfg codes reg env).2.effects
          = [.jsonWrite { status := 503, code := codes.availableServiceNotExist,
                          message := nodeNotExistMsg, scheduleUuid := none },
             .logWrite "error" 503 codes.availableServiceNotExist nodeNotExistMsg])
    ∧ (∀ e, env.resolve = .otherErr e →
      (CreateSchedule cfg codes reg env).2.outcome
          = .ok { status := 500, code := 0, message := resolveErrMsg e, scheduleUuid := none }
      ∧ (CreateSchedule cfg codes reg env).1 = reg
      ∧ (CreateSchedule cfg codes reg env).2.effects
          = [.jsonWrite { status := 500, code := 0, message := resolveErrMsg e, scheduleUuid := none },
             .logWrite "error" 500 0 (resolveErrMsg e)]) := by
  constructor
  · intro h4
    refine ⟨?_, ?_, ?_⟩ <;> simp [CreateSchedule, h1, h2, h3, h4]
  · intro e h4
    refine ⟨?_, ?_, ?_⟩ <;> simp [CreateSchedule, h1, h2, h3, h4]

/-- Witness for C5 at a concrete not-found resolution. -/
theorem claim_c5_resolution_errors_witness :
    (CreateSchedule cfgEx codesEx regInit
        { envReject with resolve := .availableNodeNotExist }).2.outcome
      = .ok { status := 503, code := codesEx.availableServiceNotExist,
              message := nodeNotExistMsg, scheduleUuid := none } :=
  ((claim_c5_resolution_errors cfgEx codesEx regInit
      { envReject with resolve := .availableNodeNotExist } rfl rfl rfl).1 rfl).1

/-- C6: when the breaker admitted the call and the backend invocation
returned a transport-layer error, a typed go-micro error with code 408
yields a 408 response with code 0 whose message contains the error's
detail; any other typed error code yields 500 with code 0, and an untyped
error also yields 500 with code 0. -/
theorem claim_c6_transport_errors (cfg : BreakerCfg) (codes : Codes) (reg : RegState)
    (env : Env) (node : Node)
    (h1 : env.logEntry = .present) (h2 : env.auth.ok = true) (h3 : env.valid.ok = true)
    (h4 : env.resolve = .ok node) :
    (∀ e, env.run = .microErr e →
      (e.code = 408 →
        (CreateSchedule cfg codes reg env).2.outcome
            = .ok { status := 408, code := 0, message := timeoutDetailMsg e, scheduleUuid := none }
        ∧ strContains (timeoutDetailMsg e) e.detail)
      ∧ (e.code ≠ 408 →
        (CreateSchedule cfg codes reg env).2.outcome
            = .ok { status := 500, code := 0, message := unexpectedMicroMsg e, scheduleUuid := none }))
    ∧ (∀ m, env.run = .otherErr m →
      (CreateSchedule cfg codes reg env).2.outcome
          = .ok { status := 500, code := 0, message := unexpectedTypeMsg m, scheduleUuid := none }) := by
  constructor
  · intro e h5
    constructor
    · intro h6
      refine ⟨by simp [CreateSchedule, h1, h2, h3, h4, h5, h6], ?_⟩
      exact ⟨"request time out for CreateSchedule service, detail: ", "",
        by simp [timeoutDetailMsg, String.append_empty]⟩
    · intro h6
      simp [CreateSchedule, h1, h2, h3, h4, h5, h6]
  · intro m h5
    simp [CreateSchedule, h1, h2, h3, h4, h5]

/-- Witness for C6 at a concrete timeout-coded transport error. -/
theorem claim_c6_transport_errors_witness :
    (CreateSchedule cfgEx codesEx regInit
        { envReject with run := .microErr { code := 408, detail := "deadline exceeded" } }).2.outcome
      = .ok { status := 408, code := 0,
              message := timeoutDetailMsg { code := 408, detail := "deadline exceeded" },
              scheduleUuid := none } :=
  (((claim_c6_transport_errors cfgEx codesEx regInit
      { envReject with run := .microErr { code := 408, detail := "deadline exceeded" } }
      nodeEx rfl rfl rfl rfl).1
      { code := 408, detail := "deadline exceeded" } rfl).1 rfl).1

/-- C7: when the backend invocation succeeds with a declared status other
than 201 — named cases 408/500/503 and any other value alike — the handler
passes the backend's declared status, code and message through verbatim. -/
theorem claim_c7_verbatim_passthrough (cfg : BreakerCfg) (codes : Codes) (reg : RegState)
    (env : Env) (node : Node) (resp : RpcResp)
    (h1 : env.logEntry = .present) (h2 : env.auth.ok = true) (h3 : env.valid.ok = true)
    (h4 : env.resolve = .ok node) (h5 : env.run = .okResp resp) (h6 : resp.status ≠ 201) :
    (CreateSchedule cfg codes reg env).2.outcome
      = .ok { status := resp.status, code := resp.code, message := resp.msg,
              scheduleUuid := none } := by
  simp [CreateSchedule, h1, h2, h3, h4, h5, h6]

/-- Witness for C7 at a backend-declared 503. -/
theorem claim_c7_verbatim_passthrough_witness :
    (CreateSchedule cfgEx codesEx regInit
        { envReject with
          run := .okResp { status := 503, code := -7, msg := "schedule domain is busy",
                           scheduleUuid := "" } }).2.outcome
      = .ok { status := 503, code := -7, message := "schedule domain is busy",
              scheduleUuid := none } :=
  claim_c7_verbatim_passthrough cfgEx codesEx regInit _ nodeEx
    { status := 503, code := -7, msg := "schedule domain is busy", scheduleUuid := "" }
    rfl rfl rfl rfl rfl (by decide)

/-- C8: the breaker-open outcome is independent of the health-signal
results: for any success/failure of `FailTTLHealth` and `PassTTLHealth`,
the handler produces the same 503 `CircuitBreakerOpen` response, effect
trace, deferred task and registry state (no escalation into the request's
error path); a failed failing-signal only yields an agent-side log line. -/
theorem claim_c8_health_result_independence (cfg : BreakerCfg) (codes : Codes) (reg : RegState)
    (env : Env) (node : Node)
    (h1 : env.logEntry = .present) (h2 : env.auth.ok = true) (h3 : env.valid.ok = true)
    (h4 : env.resolve = .ok node) (h5 : env.run = .reject) :
    (∀ b1 b2,
      (CreateSchedule cfg codes reg { env with failTTLOk := b1, passTTLOk := b2 }).2.outcome
          = .ok { status := 503, code := codes.circuitBreakerOpen,
                  message := breakerOpenMsg node cfg, scheduleUuid := none }
      ∧ (CreateSchedule cfg codes reg { env with failTTLOk := b1, passTTLOk := b2 }).2.effects
          = (CreateSchedule cfg codes reg env).2.effects
      ∧ (CreateSchedule cfg codes reg { env with failTTLOk := b1, passTTLOk := b2 }).2.deferred
          = (CreateSchedule cfg codes reg env).2.deferred
      ∧ (CreateSchedule cfg codes reg { env with failTTLOk := b1, passTTLOk := b2 }).1
          = (CreateSchedule cfg codes reg env).1)
    ∧ (∀ b2,
      (CreateSchedule cfg codes reg { env with failTTLOk := false, passTTLOk := b2 }).2.agentLogs
          = ["failed to mark health check " ++ node.checkID ++ " failing: " ++ errBreakerOpenText]) := by
  constructor
  · intro b1 b2
    refine ⟨?_, ?_, ?_, ?_⟩ <;> simp [CreateSchedule, h1, h2, h3, h4, h5]
  · intro b2
    simp [CreateSchedule, h1, h2, h3, h4, h5, failTTLHealthLogs]

/-- Witness for C8: with the failing signal failing and the passing signal
succeeding, the response is still the breaker-open 503. -/
theorem claim_c8_health_result_independence_witness :
    (CreateSchedule cfgEx codesEx regInit
        { envReject with failTTLOk := false, passTTLOk := true }).2.outcome
      = .ok { status := 503, code := codesEx.circuitBreakerOpen,
              message := breakerOpenMsg nodeEx cfgEx, scheduleUuid := none } :=
  ((claim_c8_health_result_independence cfgEx codesEx regInit envReject nodeEx
      rfl rfl rfl rfl rfl).1 false true).1

/-- C10: on a request whose context holds no usable `RequestLogEntry`, the
handler writes the 500 JSON body and then dereferences the nil log entry
(`entry.WithFields` on the nil `*logrus.Entry`), so the run ends in a
nil-pointer crash rather than a clean return. -/
theorem claim_c10_nil_entry_deref :
    (CreateSchedule cfgEx codesEx regInit { envReject with logEntry := .absent }).2
      = { effects := [.jsonWrite { status := 500, code := 0, message := noEntryMsg,
                                   scheduleUuid := none }],
          deferred := [],
          outcome := .nilEntryCrash { status := 500, code := 0, message := noEntryMsg,
                                      scheduleUuid := none },
          agentLogs := [] } := rfl

end Gateway
